/-
Verification of the Trae Agent Flask API task engine (app.py and selected
trae_agent modules) against its natural-language specification.

The Python sources are shallowly embedded: each route handler / worker
function becomes a pure Lean function over explicit state (the task
registry, the per-task message queue, process liveness), with the external
environment (agent execution, filesystem, clock) passed as parameters.
Events on the multiprocessing queue are modelled as records with a
`serializable` flag standing for whether `json.dumps` succeeds on them.
-/
import Mathlib

namespace TraeApi

/-- Event type tags carried in the `type` field of queue messages
(spec event taxonomy: start, step, complete, error, end). -/
inductive EventType where
  | start
  | step
  | complete
  | error
  | end_
deriving DecidableEq, Repr

/-- A message (Python dict) placed on a task's multiprocessing queue or
yielded by a reader.  Optional fields model keys that are present only in
some message shapes.  `serializable` models whether `json.dumps` succeeds
on the dict (`True` for every dict built by the code itself). -/
structure Msg where
  type : EventType
  task_id : Option String
  timestamp : Nat
  message : Option String
  error : Option String
  traceback : Option String
  original_message : Option String
  serializable : Bool
deriving DecidableEq, Repr

/-- The `start` message put by `run_agent_task` (app.py lines 88-93). -/
def startMsg (tid task : String) (t : Nat) : Msg :=
  { type := .start
    task_id := some tid
    timestamp := t
    message := some ("开始执行任务: " ++ task)
    error := none
    traceback := none
    original_message := none
    serializable := true }

/-- The `complete` message put by `run_agent_task` (app.py lines 100-105). -/
def completeMsg (tid : String) (t : Nat) : Msg :=
  { type := .complete
    task_id := some tid
    timestamp := t
    message := some "任务执行完成"
    error := none
    traceback := none
    original_message := none
    serializable := true }

/-- The `error` message put by `run_agent_task` (app.py lines 108-115). -/
def errorMsg (tid e tb : String) (t : Nat) : Msg :=
  { type := .error
    task_id := some tid
    timestamp := t
    message := none
    error := some e
    traceback := some tb
    original_message := none
    serializable := true }

/-- The `end` message put by `run_agent_task`'s `finally` block
(app.py lines 118-122). -/
def endMsg (tid : String) (t : Nat) : Msg :=
  { type := .end_
    task_id := some tid
    timestamp := t
    message := none
    error := none
    traceback := none
    original_message := none
    serializable := true }

/-- Embedding of `run_agent_task` (app.py lines 71-122): the list of
messages the worker puts on the queue, in order.  The external environment
is passed in: `setup` is the combined outcome of `create_agent_config` and
the `Agent` constructor (both run inside the `try` before the `start`
message is put); `runOutcome` is the outcome of `asyncio.run(agent.run ...)`;
`times` gives the successive `time.time()` readings.  An exception anywhere
in the `try` lands in the `except` clause (one `error` message) and the
`finally` clause always puts the `end` message. -/
def run_agent_task (tid task : String) (setup : Except String Unit)
    (runOutcome : Except String Unit) (times : Nat → Nat) : List Msg :=
  match setup with
  | .error e => [errorMsg tid e e (times 0), endMsg tid (times 1)]
  | .ok _ =>
    match runOutcome with
    | .ok _ =>
      [startMsg tid task (times 0), completeMsg tid (times 1), endMsg tid (times 2)]
    | .error e =>
      [startMsg tid task (times 0), errorMsg tid e e (times 1), endMsg tid (times 2)]

/-- Number of messages of a given event type in a list. -/
def countType (t : EventType) (evs : List Msg) : Nat :=
  (evs.filter (fun m => m.type == t)).length

/-- C1: whatever the outcome of agent setup and of the agent run, the
worker `run_agent_task` puts exactly one of `complete`/`error` (never
both), exactly one `end`, and the `end` message is the last message it
emits. -/
theorem C1_worker_terminal_protocol (tid task : String)
    (setup runOutcome : Except String Unit) (times : Nat → Nat) :
    countType .complete (run_agent_task tid task setup runOutcome times)
        + countType .error (run_agent_task tid task setup runOutcome times) = 1
    ∧ countType .end_ (run_agent_task tid task setup runOutcome times) = 1
    ∧ (run_agent_task tid task setup runOutcome times).getLast?.map Msg.type
        = some .end_ := by
  cases setup <;> cases runOutcome <;>
    simp [run_agent_task, countType, startMsg, completeMsg, errorMsg, endMsg,
      List.getLast?]

/-- C2 counterexample: on a task whose first model turn returns a final
answer with no tool calls (agent run returns normally), the worker's queue
receives the sequence `start, complete, end` — it contains no `step` event
at all, so the claimed sequence `start, step(1), complete, end` does not
occur.  Only `run_agent_task` ever writes to the queue, and it never
constructs a `step` message. -/
theorem C2_counterexample :
    (run_agent_task "t" "demo" (.ok ()) (.ok ()) (fun i => i)).map Msg.type
        = [.start, .complete, .end_]
    ∧ countType .step (run_agent_task "t" "demo" (.ok ()) (.ok ()) (fun i => i)) = 0
    ∧ (run_agent_task "t" "demo" (.ok ()) (.ok ()) (fun i => i)).map Msg.type
        ≠ [.start, .step, .complete, .end_] := by
  refine ⟨rfl, rfl, ?_⟩
  decide

/-- C2 amended: the worker emits no `step` events whatsoever (the agent's
internal steps are not relayed onto the queue), and a task whose agent run
returns normally produces exactly the sequence `start, complete, end`. -/
theorem C2_no_step_events (tid task : String)
    (setup runOutcome : Except String Unit) (times : Nat → Nat) :
    countType .step (run_agent_task tid task setup runOutcome times) = 0
    ∧ (setup = .ok () → runOutcome = .ok () →
        (run_agent_task tid task setup runOutcome times).map Msg.type
          = [.start, .complete, .end_]) := by
  cases setup <;> cases runOutcome <;>
    simp [run_agent_task, countType, startMsg, completeMsg, errorMsg, endMsg]

/-- Witness for C2's amended theorem at a concrete successful run. -/
theorem C2_no_step_events_witness :
    countType .step (run_agent_task "w" "demo" (.ok ()) (.ok ()) (fun i => i)) = 0
    ∧ (run_agent_task "w" "demo" (.ok ()) (.ok ()) (fun i => i)).map Msg.type
        = [.start, .complete, .end_] :=
  ⟨(C2_no_step_events "w" "demo" (.ok ()) (.ok ()) (fun i => i)).1,
   (C2_no_step_events "w" "demo" (.ok ()) (.ok ()) (fun i => i)).2 rfl rfl⟩

/-- The synthetic substitute built when `json.dumps(message)` raises, used
identically by the stream reader (app.py lines 387-395) and the status
reader (app.py lines 446-453): a dict with `type` `error`, a
serialization-error text, the original message's `str()` form, and a fresh
timestamp.  It has no `task_id` key. -/
def serializationErrorMsg (orig : String) (now : Nat) : Msg :=
  { type := .error
    task_id := none
    timestamp := now
    message := some "Message serialization error"
    error := none
    traceback := none
    original_message := some orig
    serializable := true }

/-- Rendering of `str(message)` for a queue message (the Python `dict`
stringification, modelled as a field-by-field rendering). -/
def EventType.pyName : EventType → String
  | .start => "start"
  | .step => "step"
  | .complete => "complete"
  | .error => "error"
  | .end_ => "end"

/-- Stringified form of a message, standing for Python's `str(message)`. -/
def msgPyStr (m : Msg) : String :=
  "type: " ++ m.type.pyName
    ++ ", task_id: " ++ (m.task_id.getD "None")
    ++ ", timestamp: " ++ toString m.timestamp
    ++ ", message: " ++ (m.message.getD "None")
    ++ ", error: " ++ (m.error.getD "None")

/-- What a reader emits for one drained message: the message itself when
`json.dumps` succeeds, otherwise the synthetic serialization-error
substitute carrying `str(message)` (app.py lines 383-395 and 440-453 share
this logic verbatim). -/
def drainRelay (m : Msg) (now : Nat) : Msg :=
  if m.serializable then m else serializationErrorMsg (msgPyStr m) now

/-- The hand-written SSE record yielded by the stream reader when the
queue is empty and the worker process is no longer alive
(app.py line 405): a synthesized `end` with the task id and a timestamp. -/
def synthesizedEnd (tid : String) (now : Nat) : Msg :=
  { type := .end_
    task_id := some tid
    timestamp := now
    message := none
    error := none
    traceback := none
    original_message := none
    serializable := true }

/-- Embedding of the `generate` loop of `stream_task_messages`
(app.py lines 374-407).  `queued` is the complete sequence of messages the
worker ever puts on the queue (drained with `get_nowait` in order);
`alive` is whether `process.is_alive()` still holds once the queue is
exhausted.  The result is the list of records yielded before the stream
closes, or `none` when the loop never terminates (empty queue, worker
still alive — it polls forever).  Each drained message is relayed through
`drainRelay`; the loop breaks right after relaying a message whose
original `type` is `end`; on an empty queue with a dead worker it yields
the synthesized `end` and breaks. -/
def streamGenerate (queued : List Msg) (alive : Bool) (tid : String)
    (now : Nat) : Option (List Msg) :=
  match queued with
  | [] => if alive then none else some [synthesizedEnd tid now]
  | m :: rest =>
    if m.type == .end_ then some [drainRelay m now]
    else (streamGenerate rest alive tid now).map (fun out => drainRelay m now :: out)

/-- Whether some queued message has type `end`. -/
def hasEnd (evs : List Msg) : Bool :=
  evs.any (fun m => m.type == .end_)

/-- The prefix of a queue up to and including its first `end` message. -/
def takeToEnd : List Msg → List Msg
  | [] => []
  | m :: rest => if m.type == .end_ then [m] else m :: takeToEnd rest

/-- Stream behaviour as the specification words it (refinement target for
C3, written from the spec, to be compared with `streamGenerate`): relay
the queued events in order, closing immediately after relaying an `end`;
if no `end` is ever queued and the worker is gone, relay everything and
append one synthesized `end`; if no `end` is queued and the worker stays
alive the stream never closes. -/
def specStreamBehaviour (queued : List Msg) (alive : Bool) (tid : String)
    (now : Nat) : Option (List Msg) :=
  if hasEnd queued then
    some ((takeToEnd queued).map (fun m => drainRelay m now))
  else if alive then none
  else some (queued.map (fun m => drainRelay m now) ++ [synthesizedEnd tid now])

/-- Helper: the embedded stream loop agrees with the spec-side description
of the stream on every queue and liveness state. -/
theorem streamGenerate_eq_specStream (queued : List Msg) (alive : Bool)
    (tid : String) (now : Nat) :
    streamGenerate queued alive tid now
      = specStreamBehaviour queued alive tid now := by
  induction queued with
  | nil => simp [streamGenerate, specStreamBehaviour, hasEnd, takeToEnd]
  | cons m rest ih =>
    by_cases hm : m.type = .end_
    · simp [streamGenerate, specStreamBehaviour, hasEnd, takeToEnd, hm]
    · have hm' : (m.type == EventType.end_) = false := by
        simp [hm]
      have hcons : hasEnd (m :: rest) = hasEnd rest := by
        simp [hasEnd, List.any_cons, hm']
      simp only [streamGenerate, hm', Bool.false_eq_true, if_false, ih]
      unfold specStreamBehaviour
      rw [hcons]
      cases hrest : hasEnd rest with
      | true => simp [takeToEnd, hm', hrest]
      | false => cases alive <;> simp [takeToEnd, hm', hrest]

/-- C3: the stream reader relays queued events in order and terminates
immediately after relaying an `end` event; if the worker is no longer
alive once the queue is empty and no `end` was relayed, it yields one
synthesized `end` (carrying the task id and a timestamp) and terminates.
Stated as equality with the spec-side description of the stream. -/
theorem C3_stream_refines_spec (queued : List Msg) (alive : Bool)
    (tid : String) (now : Nat) :
    streamGenerate queued alive tid now
      = specStreamBehaviour queued alive tid now :=
  streamGenerate_eq_specStream queued alive tid now

/-- The per-task entry of the `active_tasks` dict (app.py lines 192-197):
the worker process (its liveness, and how it reacts to `terminate()` —
`termExitTime` is the number of seconds after `terminate()` at which it
would exit, `none` if it would ignore the signal), the message queue
contents, and the start time. -/
structure TaskInfo where
  alive : Bool
  termExitTime : Option Nat
  queued : List Msg
  start_time : Nat
deriving DecidableEq

/-- The `active_tasks` registry: task_id → task info (dict semantics:
lookup finds the first binding, deletion removes the key). -/
abbrev Registry := List (String × TaskInfo)

/-- Dict lookup `active_tasks[task_id]` / `task_id in active_tasks`. -/
def lookupTask (reg : Registry) (tid : String) : Option TaskInfo :=
  (reg.find? (fun p => p.1 == tid)).map (fun p => p.2)

/-- Dict deletion `del active_tasks[task_id]` (app.py line 492). -/
def removeTask (reg : Registry) (tid : String) : Registry :=
  reg.filter (fun p => p.1 != tid)

/-- Replacing a task's entry (used to reflect that a status query drains
the queue in place). -/
def updateTask (reg : Registry) (tid : String) (info : TaskInfo) : Registry :=
  reg.map (fun p => if p.1 == tid then (p.1, info) else p)

/-- The JSON body of a successful `/api/tasks/<id>/status` response
(app.py lines 457-464). -/
structure StatusResponse where
  task_id : String
  task_status : String
  start_time : Nat
  duration : Nat
  messages : List Msg
deriving DecidableEq

/-- Embedding of `get_task_status` (app.py lines 420-470).  Returns `none`
for the 404 "Task not found" case, otherwise the response body; the
returned registry reflects that the handler drained the queue with
`get_nowait` until empty (each drained message is relayed through the same
serialization guard as the stream, app.py lines 440-453).  No `end` event
is ever synthesized here: a dead process only flips `task_status` to
`completed` (app.py lines 431-435). -/
def get_task_status (reg : Registry) (tid : String) (now : Nat) :
    Option StatusResponse × Registry :=
  match lookupTask reg tid with
  | none => (none, reg)
  | some info =>
    (some { task_id := tid
            task_status := if info.alive then "running" else "completed"
            start_time := info.start_time
            duration := now - info.start_time
            messages := info.queued.map (fun m => drainRelay m now) },
     updateTask reg tid { info with queued := [] })

/-- Embedding of the `stream_task_messages` route (app.py lines 368-417):
`none` for the 404 "Task not found" case, otherwise the stream body
produced by the `generate` loop (`some none` when that loop never
terminates). -/
def stream_task_messages (reg : Registry) (tid : String) (now : Nat) :
    Option (Option (List Msg)) :=
  match lookupTask reg tid with
  | none => none
  | some info => some (streamGenerate info.queued info.alive tid now)

/-- Outcome of the `/api/tasks/<id>/stop` route. -/
inductive StopStatus where
  | stopped
  | notFound
deriving DecidableEq

/-- How the worker process was brought down by `stop_task`. -/
inductive KillMode where
  | alreadyDead
  | graceful
  | forced
deriving DecidableEq

/-- The process-teardown part of `stop_task` (app.py lines 483-489):
if the process is alive, `terminate()` then `join(timeout=5)`; if it is
still alive after that 5-second grace period, `kill()` then `join()`.
A worker that exits within 5 seconds of `terminate()` dies gracefully;
one that ignores the signal or exits later than the grace period is
force-killed. -/
def stopProcess (info : TaskInfo) : KillMode :=
  if info.alive then
    match info.termExitTime with
    | some t => if t ≤ 5 then .graceful else .forced
    | none => .forced
  else .alreadyDead

/-- Embedding of `stop_task` (app.py lines 473-503): 404 for an unknown
task id; otherwise tear the process down (when alive) and in all cases
delete the registry entry. -/
def stop_task (reg : Registry) (tid : String) :
    StopStatus × Option KillMode × Registry :=
  match lookupTask reg tid with
  | none => (.notFound, none, reg)
  | some info => (.stopped, some (stopProcess info), removeTask reg tid)

/-- Helper: looking up a task after deleting it finds nothing. -/
theorem lookupTask_removeTask (reg : Registry) (tid : String) :
    lookupTask (removeTask reg tid) tid = none := by
  induction reg with
  | nil => rfl
  | cons p rest ih =>
    by_cases h : p.1 = tid
    · simp [removeTask, lookupTask, h] at ih ⊢
    · simp [removeTask, lookupTask, List.find?, h] at ih ⊢

/-- Helper: the serialization guard never turns a non-`end` message into
an `end` message (its substitute has type `error`). -/
theorem drainRelay_type_ne_end (m : Msg) (now : Nat)
    (h : m.type ≠ .end_) : (drainRelay m now).type ≠ .end_ := by
  unfold drainRelay
  by_cases hs : m.serializable <;> simp [hs, serializationErrorMsg, h]

/-- Helper: a drained queue that contained no `end` message yields no
`end` message after the serialization guard either. -/
theorem countType_end_drain (queued : List Msg) (now : Nat)
    (h : hasEnd queued = false) :
    countType .end_ (queued.map (fun m => drainRelay m now)) = 0 := by
  induction queued with
  | nil => rfl
  | cons m rest ih =>
    simp only [hasEnd, List.any_cons, Bool.or_eq_false_iff] at h
    have h1 : m.type ≠ EventType.end_ := by
      intro hc
      simp [hc] at h
    have hcond : ((drainRelay m now).type == EventType.end_) = false := by
      simpa using drainRelay_type_ne_end m now h1
    have h2 : hasEnd rest = false := by
      simpa [hasEnd] using h.2
    simp only [List.map_cons, countType, List.filter_cons, hcond,
      Bool.false_eq_true, if_false]
    exact ih h2

/-- C4 counterexample: a worker killed externally (process dead) without
ever putting an `end` on its queue.  A reader that only calls the status
endpoint drains the queue: the first call returns the buffered messages
with no `end` among them and reports `completed`; every later call
returns an empty message list — so a status-only reader never observes an
`end` event, contradicting the claim. -/
theorem C4_counterexample :
    countType .end_
        ((((get_task_status
              [("t", { alive := false, termExitTime := none,
                       queued := [startMsg "t" "demo" 0], start_time := 0 })]
              "t" 5).1).map StatusResponse.messages).getD []) = 0
    ∧ ((get_task_status
          (get_task_status
            [("t", { alive := false, termExitTime := none,
                     queued := [startMsg "t" "demo" 0], start_time := 0 })]
            "t" 5).2 "t" 6).1).map StatusResponse.messages = some []
    ∧ (((get_task_status
          [("t", { alive := false, termExitTime := none,
                   queued := [startMsg "t" "demo" 0], start_time := 0 })]
          "t" 5).1).map StatusResponse.task_status) = some "completed" :=
  ⟨rfl, rfl, rfl⟩

/-- C4 amended: after an external kill with no `end` queued, only a
*stream* reader observes a terminating `end` (the stream synthesizes one
once the process is dead); the status endpoint never synthesizes an `end`
— the messages it returns contain none, it merely reports the task as
`completed`. -/
theorem C4_only_stream_synthesizes_end (reg : Registry) (tid : String)
    (info : TaskInfo) (now : Nat)
    (h : lookupTask reg tid = some info) (hne : hasEnd info.queued = false) :
    countType .end_
        ((((get_task_status reg tid now).1).map StatusResponse.messages).getD [])
      = 0
    ∧ (info.alive = false →
        ∃ out, stream_task_messages reg tid now = some (some out)
          ∧ out.getLast?.map Msg.type = some .end_) := by
  constructor
  · simp only [get_task_status, h, Option.map_some, Option.getD_some]
    exact countType_end_drain info.queued now hne
  · intro ha
    refine ⟨info.queued.map (fun m => drainRelay m now)
        ++ [synthesizedEnd tid now], ?_, ?_⟩
    · simp [stream_task_messages, h, ha, streamGenerate_eq_specStream,
        specStreamBehaviour, hne]
    · simp [synthesizedEnd]

/-- Witness for C4's amended theorem at the concrete killed-worker state. -/
theorem C4_only_stream_synthesizes_end_witness :
    countType .end_
        ((((get_task_status
              [("t", { alive := false, termExitTime := none,
                       queued := [startMsg "t" "demo" 0], start_time := 0 })]
              "t" 5).1).map StatusResponse.messages).getD []) = 0
    ∧ (∃ out, stream_task_messages
          [("t", { alive := false, termExitTime := none,
                   queued := [startMsg "t" "demo" 0], start_time := 0 })]
          "t" 5 = some (some out)
        ∧ out.getLast?.map Msg.type = some .end_) :=
  have h := C4_only_stream_synthesizes_end
    [("t", { alive := false, termExitTime := none,
             queued := [startMsg "t" "demo" 0], start_time := 0 })]
    "t"
    { alive := false, termExitTime := none,
      queued := [startMsg "t" "demo" 0], start_time := 0 }
    5 rfl rfl
  ⟨h.1, h.2 rfl⟩

/-- C5: stopping the same task twice yields "not found" the second time
(the first successful stop removed the registration), and stopping a
task id that was never registered yields "not found" — never an error on
a running task. -/
theorem C5_stop_twice_not_found (reg : Registry) (tid : String) :
    ((stop_task reg tid).1 = .stopped →
        (stop_task (stop_task reg tid).2.2 tid).1 = .notFound)
    ∧ (lookupTask reg tid = none → (stop_task reg tid).1 = .notFound) := by
  constructor
  · intro h
    cases hl : lookupTask reg tid with
    | none => simp [stop_task, hl] at h
    | some info => simp [stop_task, hl, lookupTask_removeTask]
  · intro h
    simp [stop_task, h]

/-- Witness for C5 at a one-task registry and at the empty registry. -/
theorem C5_stop_twice_not_found_witness :
    (stop_task
        (stop_task [("a", { alive := true, termExitTime := some 1,
                            queued := [], start_time := 0 })] "a").2.2
        "a").1 = .notFound
    ∧ (stop_task ([] : Registry) "b").1 = .notFound :=
  ⟨(C5_stop_twice_not_found
      [("a", { alive := true, termExitTime := some 1,
               queued := [], start_time := 0 })] "a").1 rfl,
   (C5_stop_twice_not_found ([] : Registry) "b").2 rfl⟩

/-- C6: for a registered task, stop reports success; a live worker that
exits within the 5-second grace period after `terminate()` is stopped
gracefully, one that exits later or ignores the signal is force-killed;
and in all cases the registration is removed, so every subsequent status,
stream, or stop query for that task id reports "not found". -/
theorem C6_stop_deregisters (reg : Registry) (tid : String)
    (info : TaskInfo) (now : Nat) (h : lookupTask reg tid = some info) :
    (stop_task reg tid).1 = .stopped
    ∧ (info.alive = true → ∀ t, info.termExitTime = some t → t ≤ 5 →
        (stop_task reg tid).2.1 = some .graceful)
    ∧ (info.alive = true → ∀ t, info.termExitTime = some t → 5 < t →
        (stop_task reg tid).2.1 = some .forced)
    ∧ (info.alive = true → info.termExitTime = none →
        (stop_task reg tid).2.1 = some .forced)
    ∧ lookupTask (stop_task reg tid).2.2 tid = none
    ∧ (get_task_status (stop_task reg tid).2.2 tid now).1 = none
    ∧ stream_task_messages (stop_task reg tid).2.2 tid now = none
    ∧ (stop_task (stop_task reg tid).2.2 tid).1 = .notFound := by
  have hs : stop_task reg tid
      = (.stopped, some (stopProcess info), removeTask reg tid) := by
    simp [stop_task, h]
  refine ⟨by simp [hs], ?_, ?_, ?_, ?_, ?_, ?_, ?_⟩
  · intro ha t ht hle
    simp [hs, stopProcess, ha, ht, hle]
  · intro ha t ht hgt
    have hnle : ¬ t ≤ 5 := by omega
    simp [hs, stopProcess, ha, ht, hnle]
  · intro ha hn
    simp [hs, stopProcess, ha, hn]
  · simp [hs, lookupTask_removeTask]
  · simp [hs, get_task_status, lookupTask_removeTask]
  · simp [hs, stream_task_messages, lookupTask_removeTask]
  · rw [hs]
    simp [stop_task, lookupTask_removeTask]

/-- Witness for C6 at a one-task registry whose worker exits one second
after `terminate()`. -/
theorem C6_stop_deregisters_witness :
    (stop_task [("a", { alive := true, termExitTime := some 1,
                        queued := [], start_time := 0 })] "a").1 = .stopped
    ∧ (stop_task [("a", { alive := true, termExitTime := some 1,
                          queued := [], start_time := 0 })] "a").2.1
        = some .graceful
    ∧ lookupTask
        (stop_task [("a", { alive := true, termExitTime := some 1,
                            queued := [], start_time := 0 })] "a").2.2 "a"
        = none :=
  have h := C6_stop_deregisters
    [("a", { alive := true, termExitTime := some 1,
             queued := [], start_time := 0 })]
    "a"
    { alive := true, termExitTime := some 1, queued := [], start_time := 0 }
    9 rfl
  ⟨h.1, h.2.1 rfl 1 rfl (by omega), h.2.2.2.2.1⟩

/-- C8: when an event drained from the queue cannot be JSON-serialized,
both readers substitute a synthetic error event that carries the original
event's stringified form; the stream continues past it (and still closes
if the unserializable event was the `end`), and the status response keeps
one (possibly substituted) entry per drained event — nothing is silently
dropped. -/
theorem C8_serialization_error_substitution (reg : Registry) (tid : String)
    (info : TaskInfo) (m : Msg) (rest : List Msg) (alive : Bool) (now : Nat) :
    (m.serializable = false →
      drainRelay m now = serializationErrorMsg (msgPyStr m) now
      ∧ (drainRelay m now).type = .error
      ∧ (drainRelay m now).original_message = some (msgPyStr m))
    ∧ (m.serializable = false → m.type ≠ .end_ →
        streamGenerate (m :: rest) alive tid now
          = (streamGenerate rest alive tid now).map
              (fun out => serializationErrorMsg (msgPyStr m) now :: out))
    ∧ (m.serializable = false → m.type = .end_ →
        streamGenerate (m :: rest) alive tid now
          = some [serializationErrorMsg (msgPyStr m) now])
    ∧ (lookupTask reg tid = some info →
        ((get_task_status reg tid now).1).map (fun r => r.messages)
          = some (info.queued.map (fun x => drainRelay x now))) := by
  refine ⟨?_, ?_, ?_, ?_⟩
  · intro hm
    simp [drainRelay, serializationErrorMsg, hm]
  · intro hm hend
    have hm' : (m.type == EventType.end_) = false := by
      simp [hend]
    simp [streamGenerate, hm', drainRelay, hm]
  · intro hm hend
    simp [streamGenerate, hend, drainRelay, hm]
  · intro h
    simp [get_task_status, h]

/-- Witness for C8 at a concrete unserializable `step` message, a
concrete unserializable `end` message, and a one-task registry. -/
theorem C8_serialization_error_substitution_witness :
    (drainRelay
        { type := .step, task_id := some "t", timestamp := 3,
          message := some "m", error := none, traceback := none,
          original_message := none, serializable := false } 7
      = serializationErrorMsg
          (msgPyStr
            { type := .step, task_id := some "t", timestamp := 3,
              message := some "m", error := none, traceback := none,
              original_message := none, serializable := false }) 7)
    ∧ streamGenerate
        [{ type := .step, task_id := some "t", timestamp := 3,
           message := some "m", error := none, traceback := none,
           original_message := none, serializable := false }] false "t" 7
        = (streamGenerate [] false "t" 7).map
            (fun out =>
              serializationErrorMsg
                (msgPyStr
                  { type := .step, task_id := some "t", timestamp := 3,
                    message := some "m", error := none, traceback := none,
                    original_message := none, serializable := false }) 7 :: out)
    ∧ streamGenerate
        [{ type := .end_, task_id := some "t", timestamp := 4,
           message := none, error := none, traceback := none,
           original_message := none, serializable := false }] true "t" 7
        = some [serializationErrorMsg
            (msgPyStr
              { type := .end_, task_id := some "t", timestamp := 4,
                message := none, error := none, traceback := none,
                original_message := none, serializable := false }) 7]
    ∧ ((get_task_status
          [("t", { alive := true, termExitTime := none,
                   queued := [{ type := .step, task_id := some "t",
                                timestamp := 3, message := some "m",
                                error := none, traceback := none,
                                original_message := none,
                                serializable := false }],
                   start_time := 0 })] "t" 7).1).map (fun r => r.messages)
        = some
            [drainRelay
              { type := .step, task_id := some "t", timestamp := 3,
                message := some "m", error := none, traceback := none,
                original_message := none, serializable := false } 7] :=
  have h := C8_serialization_error_substitution
    [("t", { alive := true, termExitTime := none,
             queued := [{ type := .step, task_id := some "t", timestamp := 3,
                          message := some "m", error := none,
                          traceback := none, original_message := none,
                          serializable := false }],
             start_time := 0 })]
    "t"
    { alive := true, termExitTime := none,
      queued := [{ type := .step, task_id := some "t", timestamp := 3,
                   message := some "m", error := none, traceback := none,
                   original_message := none, serializable := false }],
      start_time := 0 }
    { type := .step, task_id := some "t", timestamp := 3,
      message := some "m", error := none, traceback := none,
      original_message := none, serializable := false }
    [] false 7
  have h2 := C8_serialization_error_substitution ([] : Registry) "t"
    { alive := true, termExitTime := none, queued := [], start_time := 0 }
    { type := .end_, task_id := some "t", timestamp := 4,
      message := none, error := none, traceback := none,
      original_message := none, serializable := false }
    [] true 7
  ⟨(h.1 rfl).1, h.2.1 rfl (by decide), h2.2.2.1 rfl rfl, h.2.2.2 rfl⟩

/-- Request body of `/api/run` as far as task resolution is concerned
(app.py lines 140-156): the optional `task` text, `file_path`, and
`working_dir` fields of the JSON body. -/
structure RunRequest where
  task : Option String
  file_path : Option String
  working_dir : Option String
deriving DecidableEq

/-- Python truthiness of an optional string field read with `data.get`:
`None` and the empty string are falsy. -/
def pyTruthy : Option String → Bool
  | none => false
  | some s => s != ""

/-- Outcome of the `/api/run` route: an HTTP 400 client error with its
message, or HTTP 200 carrying the fresh task id. -/
inductive RunResponse where
  | badRequest (msg : String)
  | started (task_id : String)
deriving DecidableEq

/-- Task-text resolution of `run_task` (app.py lines 140-152): with a
truthy `file_path`, a truthy `task` as well is a 400; otherwise the file
is read (`FileNotFoundError` → 400).  With no truthy `file_path`, a falsy
`task` is a 400; otherwise the `task` text is used. -/
def resolveTask (req : RunRequest) (fs : String → Option String) :
    Except String String :=
  if pyTruthy req.file_path then
    if pyTruthy req.task then .error "Cannot use both task and file_path"
    else
      match fs (req.file_path.getD "") with
      | none => .error "File not found"
      | some contents => .ok contents
  else if pyTruthy req.task then .ok (req.task.getD "")
  else .error "Must provide either task or file_path"

/-- Embedding of the `run_task` route (app.py lines 131-203): resolve the
task text, prepare the working directory (`mkdirOk` models whether
`Path(working_dir).mkdir(...)` succeeds — a failure is a 400), then spawn
the worker with a fresh empty queue and register it under the fresh
`task_id`.  `termBehavior` is the spawned process's (environment-given)
reaction to a later `terminate()`.  Every 400 path returns before the
process is started, leaving the registry unchanged. -/
def run_task (req : RunRequest) (fs : String → Option String)
    (mkdirOk : Bool) (task_id : String) (termBehavior : Option Nat)
    (now : Nat) (reg : Registry) : RunResponse × Registry :=
  match resolveTask req fs with
  | .error e => (.badRequest e, reg)
  | .ok _ =>
    if mkdirOk then
      (.started task_id,
       reg ++ [(task_id,
         { alive := true, termExitTime := termBehavior,
           queued := [], start_time := now })])
    else (.badRequest "Error with working directory", reg)

/-- C9 counterexample: a request giving exactly one of the two fields —
`file_path` alone, pointing at a missing file — is rejected with a 400
rather than returning a task id, so "if exactly one is given, a task_id
is returned" fails on the code. -/
theorem C9_counterexample :
    (run_task { task := none, file_path := some "/missing.txt",
                working_dir := none }
        (fun _ => none) true "tid" none 0 []).1
      = .badRequest "File not found"
    ∧ pyTruthy (some "/missing.txt") = true
    ∧ pyTruthy (none : Option String) = false :=
  ⟨rfl, rfl, rfl⟩

/-- C9 amended: both fields truthy or neither truthy is a 400; every 400
leaves the registry unchanged (no task started); and with exactly one
truthy field a task id is returned provided the referenced file (when
`file_path` is used) exists and the working-directory preparation
succeeds — a missing file or failed directory preparation is also a 400. -/
theorem C9_task_xor_file_path (req : RunRequest) (fs : String → Option String)
    (mkdirOk : Bool) (tid : String) (tb : Option Nat) (now : Nat)
    (reg : Registry) :
    (pyTruthy req.task = true → pyTruthy req.file_path = true →
      run_task req fs mkdirOk tid tb now reg
        = (.badRequest "Cannot use both task and file_path", reg))
    ∧ (pyTruthy req.task = false → pyTruthy req.file_path = false →
      run_task req fs mkdirOk tid tb now reg
        = (.badRequest "Must provide either task or file_path", reg))
    ∧ (∀ e, (run_task req fs mkdirOk tid tb now reg).1 = .badRequest e →
        (run_task req fs mkdirOk tid tb now reg).2 = reg)
    ∧ (pyTruthy req.task = true → pyTruthy req.file_path = false →
        mkdirOk = true →
        (run_task req fs mkdirOk tid tb now reg).1 = .started tid)
    ∧ (∀ c, pyTruthy req.file_path = true → pyTruthy req.task = false →
        fs (req.file_path.getD "") = some c → mkdirOk = true →
        (run_task req fs mkdirOk tid tb now reg).1 = .started tid) := by
  refine ⟨?_, ?_, ?_, ?_, ?_⟩
  · intro ht hf
    simp [run_task, resolveTask, ht, hf]
  · intro ht hf
    simp [run_task, resolveTask, ht, hf]
  · intro e he
    unfold run_task at he ⊢
    cases hr : resolveTask req fs with
    | error msg => simp [hr]
    | ok t =>
      simp [hr] at he ⊢
      cases hm : mkdirOk with
      | true => simp [hm] at he
      | false => simp [hm]
  · intro ht hf hm
    simp [run_task, resolveTask, ht, hf, hm]
  · intro c hf ht hread hm
    simp [run_task, resolveTask, ht, hf, hread, hm]

/-- Witness for C9's amended theorem at concrete requests: both fields
given, neither given, task alone, and a readable file alone. -/
theorem C9_task_xor_file_path_witness :
    run_task { task := some "do it", file_path := some "/f",
               working_dir := none } (fun _ => some "text") true "i1" none 0 []
      = (.badRequest "Cannot use both task and file_path", [])
    ∧ run_task { task := none, file_path := none, working_dir := none }
        (fun _ => some "text") true "i2" none 0 []
      = (.badRequest "Must provide either task or file_path", [])
    ∧ (run_task { task := some "do it", file_path := none,
                  working_dir := none } (fun _ => none) true "i3" none 0 []).1
      = .started "i3"
    ∧ (run_task { task := none, file_path := some "/f", working_dir := none }
        (fun _ => some "text") true "i4" none 0 []).1
      = .started "i4" :=
  ⟨(C9_task_xor_file_path
      { task := some "do it", file_path := some "/f", working_dir := none }
      (fun _ => some "text") true "i1" none 0 []).1 rfl rfl,
   (C9_task_xor_file_path
      { task := none, file_path := none, working_dir := none }
      (fun _ => some "text") true "i2" none 0 []).2.1 rfl rfl,
   (C9_task_xor_file_path
      { task := some "do it", file_path := none, working_dir := none }
      (fun _ => none) true "i3" none 0 []).2.2.2.1 rfl rfl rfl,
   (C9_task_xor_file_path
      { task := none, file_path := some "/f", working_dir := none }
      (fun _ => some "text") true "i4" none 0 []).2.2.2.2
      "text" rfl rfl rfl rfl⟩

end TraeApi

namespace OpenAIClient

/-- Function part of an OpenAI wire-level tool call: the tool name and
the raw JSON text of its arguments. -/
structure RawFunction where
  name : String
  arguments : String
deriving DecidableEq

/-- One tool call as it appears in `choice.message.tool_calls`. -/
structure RawToolCall where
  id : String
  function : RawFunction
deriving DecidableEq

/-- The assistant message of the first choice of a `ChatCompletion`:
`content` may be absent, `tool_calls` may be absent or an explicit
(possibly empty) list. -/
structure RawMessage where
  content : Option String
  tool_calls : Option (List RawToolCall)
deriving DecidableEq

/-- Modelled from the spec: `ToolCall` (trae_agent.tools.base, whose
source is not among the shown files) is the record produced by the
Provider Client from a model turn — call id, tool name, and the
arguments mapping.  The arguments are kept as the raw JSON text here;
`json.loads` is an external library call whose output the claims never
inspect. -/
structure ToolCall where
  call_id : String
  name : String
  argumentsRaw : String
  id : String
deriving DecidableEq

/-- Modelled from the spec: `LLMUsage` (trae_agent.utils.llm_clients
.llm_basics, not among the shown files) carries input/output token
counts. -/
structure LLMUsage where
  input_tokens : Nat
  output_tokens : Nat
deriving DecidableEq

/-- Modelled from the spec: `LLMResponse` (trae_agent.utils.llm_clients
.llm_basics, not among the shown files) is the normalized Turn returned
by a provider client: content text, optional usage, model name, finish
reason, and optional tool calls. -/
structure LLMResponse where
  content : String
  usage : Option LLMUsage
  model : String
  finish_reason : Option String
  tool_calls : Option (List ToolCall)
deriving DecidableEq

/-- Embedding of the response-construction part of `OpenAIClient.chat`
(openai_client.py lines 110-166): from the first choice's message,
`content` becomes `choice.message.content or ""`; the tool-call list is
built only when `choice.message.tool_calls` is truthy (present and
non-empty); `tool_calls` of the `LLMResponse` is that list when it is
non-empty and `None` otherwise. -/
def chatResponse (msg : RawMessage) (respModel : String)
    (respFinish : Option String) (respUsage : Option LLMUsage) :
    LLMResponse :=
  let content := msg.content.getD ""
  let tool_calls : List ToolCall :=
    match msg.tool_calls with
    | some tcs =>
      tcs.map (fun tc =>
        { call_id := tc.id, name := tc.function.name,
          argumentsRaw := tc.function.arguments, id := tc.id })
    | none => []
  { content := content
    usage := respUsage
    model := respModel
    finish_reason := respFinish
    tool_calls := if tool_calls.length > 0 then some tool_calls else none }

/-- C7 counterexample: a provider response whose first-choice message has
no content and no tool calls passes straight through `chat`, producing an
`LLMResponse` with empty `content` and `tool_calls = None`
simultaneously — the situation the claim says is impossible. -/
theorem C7_counterexample :
    (chatResponse { content := none, tool_calls := none } "gpt-4o"
        (some "stop") none).content = ""
    ∧ (chatResponse { content := none, tool_calls := none } "gpt-4o"
        (some "stop") none).tool_calls = none :=
  ⟨rfl, rfl⟩

/-- C7 amended: `chat` enforces no Turn contract of its own — the
returned `LLMResponse` has empty `content` and `tool_calls = None`
exactly when the provider message itself had empty-or-absent content and
an absent-or-empty tool-call list; whenever the provider supplies
non-empty content or at least one tool call, the response is a proper
Turn. -/
theorem C7_turn_contract_passthrough (msg : RawMessage) (respModel : String)
    (respFinish : Option String) (respUsage : Option LLMUsage) :
    ((chatResponse msg respModel respFinish respUsage).content = ""
        ∧ (chatResponse msg respModel respFinish respUsage).tool_calls = none)
      ↔ (msg.content.getD "" = "" ∧ msg.tool_calls.getD [] = []) := by
  cases hc : msg.tool_calls with
  | none => simp [chatResponse, hc]
  | some tcs =>
    cases tcs with
    | nil => simp [chatResponse, hc]
    | cons t ts => simp [chatResponse, hc]

end OpenAIClient

namespace SequentialThinking

/-- A Python value as it can appear in `ToolCallArguments`
(sequential_thinking_tool.py works with str, int, bool and None values;
anything else only ever fails its isinstance checks). -/
inductive PyVal where
  | str (s : String)
  | int (n : Int)
  | bool (b : Bool)
  | pyNone
deriving DecidableEq

/-- Python `isinstance(v, str)`. -/
def pyIsStr : PyVal → Bool
  | .str _ => true
  | _ => false

/-- Python `isinstance(v, int)` — `bool` is a subclass of `int`. -/
def pyIsInt : PyVal → Bool
  | .int _ => true
  | .bool _ => true
  | _ => false

/-- Python `isinstance(v, bool)`. -/
def pyIsBool : PyVal → Bool
  | .bool _ => true
  | _ => false

/-- Python `int(v)` on values that passed `isinstance(v, int)`
(`int(True) = 1`, `int(False) = 0`); other values are never converted by
the embedded code paths. -/
def pyToInt : PyVal → Int
  | .int n => n
  | .bool b => if b then 1 else 0
  | _ => 0

/-- Python `bool(v)` (truthiness). -/
def pyToBool : PyVal → Bool
  | .str s => s != ""
  | .int n => n != 0
  | .bool b => b
  | .pyNone => false

/-- Python `str(v)`. -/
def pyToStr : PyVal → String
  | .str s => s
  | .int n => toString n
  | .bool b => if b then "True" else "False"
  | .pyNone => "None"

/-- Python `v != 0` (`True != 0` is `True` since `True == 1`;
`False != 0` is `False`; non-numeric values are never equal to `0`). -/
def pyNeZero : PyVal → Bool
  | .int n => n != 0
  | .bool b => b
  | _ => true

/-- `ToolCallArguments`: the JSON-object argument mapping. -/
abbrev Args := List (String × PyVal)

/-- Python `arguments["k"]` if `"k" in arguments`. -/
def argLookup (args : Args) (k : String) : Option PyVal :=
  (args.find? (fun p => p.1 == k)).map (fun p => p.2)

/-- Whether key `k` is present and its value satisfies `p`
(the `"k" in arguments and isinstance(arguments["k"], T)` pattern). -/
def argHas (args : Args) (k : String) (p : PyVal → Bool) : Bool :=
  match argLookup args k with
  | some v => p v
  | none => false

/-- The value at key `k` when it is present and not `None`
(the `"k" in arguments and arguments["k"] is not None` pattern). -/
def argOpt (args : Args) (k : String) : Option PyVal :=
  match argLookup args k with
  | some v => if v = .pyNone then none else some v
  | none => none

/-- The `ThoughtData` dataclass (sequential_thinking_tool.py
lines 19-29). -/
structure ThoughtData where
  thought : String
  thought_number : Int
  total_thoughts : Int
  next_thought_needed : Bool
  is_revision : Option Bool
  revises_thought : Option Int
  branch_from_thought : Option Int
  branch_id : Option String
  needs_more_thoughts : Option Bool
deriving DecidableEq

/-- Validation of the two optional positive-integer fields
(sequential_thinking_tool.py lines 187-215): when the key is present,
not `None` and `!= 0`, the value must be an `int` that is at least 1,
else the stated error is raised; in every other case the field is
`None`. -/
def validateOptPos (args : Args) (k errText : String) :
    Except String (Option Int) :=
  match argLookup args k with
  | some v =>
    if v ≠ .pyNone ∧ pyNeZero v then
      if !pyIsInt v ∨ pyToInt v < 1 then .error errText
      else .ok (some (pyToInt v))
    else .ok none
  | none => .ok none

/-- Embedding of `SequentialThinkingTool._validate_thought_data`
(sequential_thinking_tool.py lines 163-247): the four required fields
must be present with the right runtime type, `thought_number` and
`total_thoughts` must be at least 1, the two optional revision/branch
numbers are validated as positive integers, and the remaining optional
fields are converted with `bool`/`str`. -/
def validateThoughtData (args : Args) : Except String ThoughtData :=
  if !argHas args "thought" pyIsStr then
    .error "无效的思考：必须是字符串"
  else if !argHas args "thought_number" pyIsInt then
    .error "无效的思考编号：必须是数字"
  else if !argHas args "total_thoughts" pyIsInt then
    .error "无效的总思考数：必须是数字"
  else if !argHas args "next_thought_needed" pyIsBool then
    .error "无效的next_thought_needed：必须是布尔值"
  else if pyToInt ((argLookup args "thought_number").getD .pyNone) < 1 then
    .error "思考编号必须至少为1"
  else if pyToInt ((argLookup args "total_thoughts").getD .pyNone) < 1 then
    .error "总思考数必须至少为1"
  else
    match validateOptPos args "revises_thought" "修正思考编号必须是正整数" with
    | .error e => .error e
    | .ok revisesVal =>
      match validateOptPos args "branch_from_thought" "分支起始思考编号必须是正整数" with
      | .error e => .error e
      | .ok branchFromVal =>
        .ok { thought := pyToStr ((argLookup args "thought").getD .pyNone)
              thought_number :=
                pyToInt ((argLookup args "thought_number").getD .pyNone)
              total_thoughts :=
                pyToInt ((argLookup args "total_thoughts").getD .pyNone)
              next_thought_needed :=
                pyToBool ((argLookup args "next_thought_needed").getD .pyNone)
              is_revision := (argOpt args "is_revision").map pyToBool
              revises_thought := revisesVal
              branch_from_thought := branchFromVal
              branch_id := (argOpt args "branch_id").map pyToStr
              needs_more_thoughts :=
                (argOpt args "needs_more_thoughts").map pyToBool }

/-- Modelled from the spec: `ToolExecResult` (trae_agent.tools.base, not
among the shown files) is the structured result of a tool execution —
exactly one of `output`/`error` is meaningful, plus an error code. -/
structure ToolExecResult where
  output : Option String
  error : Option String
  error_code : Int
deriving DecidableEq

/-- The mutable state of one `SequentialThinkingTool` instance
(sequential_thinking_tool.py lines 154-157). -/
structure SeqState where
  thought_history : List ThoughtData
  branches : List (String × List ThoughtData)
deriving DecidableEq

/-- The state of a freshly constructed tool. -/
def initialState : SeqState :=
  { thought_history := [], branches := [] }

/-- The in-place adjustment at sequential_thinking_tool.py lines 285-286:
if the validated thought number exceeds the estimated total, the total is
raised to match. -/
def adjustTotals (td : ThoughtData) : ThoughtData :=
  if td.thought_number > td.total_thoughts then
    { td with total_thoughts := td.thought_number }
  else td

/-- `self.branches[branch_id]` update (sequential_thinking_tool.py
lines 292-295): create the bucket when absent, then append. -/
def addBranch : List (String × List ThoughtData) → String → ThoughtData →
    List (String × List ThoughtData)
  | [], bid, td => [(bid, [td])]
  | (k, l) :: rest, bid, td =>
    if k == bid then (k, l ++ [td]) :: rest
    else (k, l) :: addBranch rest bid td

/-- The error `ToolExecResult` built in the `except` clause
(sequential_thinking_tool.py lines 314-319). -/
def errorResult (e : String) : ToolExecResult :=
  { output := none
    error := some ("顺序思考失败：" ++ e)
    error_code := -1 }

/-- Embedding of `SequentialThinkingTool.execute`
(sequential_thinking_tool.py lines 277-319): validate (an invalid call
returns an error result and touches nothing), adjust the totals, append
to the history, record the thought in its branch when both
`branch_from_thought` and `branch_id` are truthy, and answer with a
success result. -/
def execute (st : SeqState) (args : Args) : SeqState × ToolExecResult :=
  match validateThoughtData args with
  | .error e => (st, errorResult e)
  | .ok validated =>
    let v := adjustTotals validated
    let st1 := { st with thought_history := st.thought_history ++ [v] }
    let st2 :=
      match v.branch_from_thought, v.branch_id with
      | some bft, some bid =>
        if bft != 0 ∧ bid != "" then
          { st1 with branches := addBranch st1.branches bid v }
        else st1
      | _, _ => st1
    (st2,
     { output := some ("顺序思考步骤已完成。 thought_number="
          ++ toString v.thought_number
          ++ " total_thoughts=" ++ toString v.total_thoughts
          ++ " thought_history_length="
          ++ toString st2.thought_history.length)
       error := none
       error_code := 0 })

/-- Folding a sequence of `execute` calls over the tool state. -/
def runCalls (st : SeqState) : List Args → SeqState
  | [] => st
  | a :: rest => runCalls (execute st a).1 rest

/-- The bound claimed for every recorded thought. -/
def boundsOk (td : ThoughtData) : Prop :=
  1 ≤ td.thought_number ∧ td.thought_number ≤ td.total_thoughts

/-- Every thought in the history satisfies the bound. -/
def histOk (st : SeqState) : Prop :=
  ∀ td ∈ st.thought_history, boundsOk td

/-- Helper: a successfully validated thought has `thought_number ≥ 1` and
`total_thoughts ≥ 1` (the two explicit minimum checks). -/
theorem validate_ok_lower_bounds (args : Args) (td : ThoughtData)
    (h : validateThoughtData args = .ok td) :
    1 ≤ td.thought_number ∧ 1 ≤ td.total_thoughts := by
  unfold validateThoughtData at h
  split at h
  · exact Except.noConfusion h
  split at h
  · exact Except.noConfusion h
  split at h
  · exact Except.noConfusion h
  split at h
  · exact Except.noConfusion h
  split at h
  · exact Except.noConfusion h
  split at h
  · exact Except.noConfusion h
  split at h
  · exact Except.noConfusion h
  split at h
  · exact Except.noConfusion h
  injection h with h'
  subst h'
  refine ⟨?_, ?_⟩ <;> dsimp only <;> omega

/-- Helper: the totals adjustment restores `thought_number ≤
total_thoughts` and keeps `thought_number ≥ 1`. -/
theorem adjustTotals_bounds (td : ThoughtData)
    (h : 1 ≤ td.thought_number) : boundsOk (adjustTotals td) := by
  unfold adjustTotals boundsOk
  by_cases hgt : td.thought_number > td.total_thoughts <;> simp [hgt] <;> omega

/-- Helper: a failed validation leaves the whole tool state unchanged and
produces the error result. -/
theorem execute_error_id (st : SeqState) (args : Args) (e : String)
    (h : validateThoughtData args = .error e) :
    execute st args = (st, errorResult e) := by
  simp [execute, h]

/-- Helper: a successful call appends exactly the adjusted thought to the
history (the branch bookkeeping never touches the history). -/
theorem execute_ok_append (st : SeqState) (args : Args) (td : ThoughtData)
    (h : validateThoughtData args = .ok td) :
    (execute st args).1.thought_history
      = st.thought_history ++ [adjustTotals td] := by
  simp only [execute, h]
  split
  · split
    · rfl
    · rfl
  · rfl

/-- Helper: `execute` preserves the history bound. -/
theorem execute_preserves_histOk (st : SeqState) (args : Args)
    (h : histOk st) : histOk (execute st args).1 := by
  cases hv : validateThoughtData args with
  | error e =>
    rw [execute_error_id st args e hv]
    exact h
  | ok td =>
    intro x hx
    rw [execute_ok_append st args td hv] at hx
    rcases List.mem_append.mp hx with hx | hx
    · exact h x hx
    · have hx' : x = adjustTotals td := by
        simpa using hx
      rw [hx']
      exact adjustTotals_bounds td (validate_ok_lower_bounds args td hv).1

/-- Helper: any sequence of calls preserves the history bound. -/
theorem runCalls_histOk (calls : List Args) (st : SeqState)
    (h : histOk st) : histOk (runCalls st calls) := by
  induction calls generalizing st with
  | nil => exact h
  | cons a rest ih =>
    simp only [runCalls]
    exact ih _ (execute_preserves_histOk st a h)

/-- C10: a call with invalid arguments returns an error result and leaves
`thought_history` and `branches` unchanged; a successful call appends one
`ThoughtData` with `1 ≤ thought_number ≤ total_thoughts` to the history;
hence after any sequence of `execute` calls from the initial state, every
recorded thought satisfies that bound. -/
theorem C10_thought_history_bounds (st : SeqState) (args : Args)
    (calls : List Args) :
    (∀ e, validateThoughtData args = .error e →
      execute st args = (st, errorResult e))
    ∧ (∀ td, validateThoughtData args = .ok td →
      ∃ v, (execute st args).1.thought_history = st.thought_history ++ [v]
        ∧ boundsOk v)
    ∧ histOk (runCalls initialState calls) := by
  refine ⟨?_, ?_, ?_⟩
  · intro e he
    exact execute_error_id st args e he
  · intro td htd
    exact ⟨adjustTotals td, execute_ok_append st args td htd,
      adjustTotals_bounds td (validate_ok_lower_bounds args td htd).1⟩
  · refine runCalls_histOk calls initialState ?_
    intro x hx
    cases hx

/-- Witness for C10 at a concrete invalid call (empty arguments) and a
concrete valid call. -/
theorem C10_thought_history_bounds_witness :
    execute initialState []
      = (initialState, errorResult "无效的思考：必须是字符串")
    ∧ (∃ v,
        (execute initialState
          [("thought", .str "plan"), ("thought_number", .int 2),
           ("total_thoughts", .int 3),
           ("next_thought_needed", .bool true)]).1.thought_history
          = initialState.thought_history ++ [v]
        ∧ boundsOk v)
    ∧ histOk (runCalls initialState
        [[("thought", .str "plan"), ("thought_number", .int 2),
          ("total_thoughts", .int 3),
          ("next_thought_needed", .bool true)]]) :=
  have h1 := C10_thought_history_bounds initialState [] []
  have h2 := C10_thought_history_bounds initialState
    [("thought", .str "plan"), ("thought_number", .int 2),
     ("total_thoughts", .int 3), ("next_thought_needed", .bool true)]
    [[("thought", .str "plan"), ("thought_number", .int 2),
      ("total_thoughts", .int 3), ("next_thought_needed", .bool true)]]
  ⟨h1.1 "无效的思考：必须是字符串" rfl, h2.2.1 _ rfl, h2.2.2⟩

end SequentialThinking
